import Mathlib

/-
Verification of the coordinate/dimension data model of `src/data_model.py`
(MDTF-diagnostics).  The Python classes are embedded shallowly:

* every `@util.mdtf_dataclass` class becomes a Lean structure holding the
  same dataclass fields (class-level constants such as
  `DMLongitudeCoordinate.axis = DMAxis.X` become accessor functions);
* the abstract-base interface `AbstractDMCoordinate` becomes the sum type
  `Coord` over the registered variants, with the shared accessor set
  `name` / `standard_name` / `units` / `axis` / `bounds`;
* Python object references from a coordinate to its `DMCoordinateBounds`
  object are carried as opaque identifiers (`Option Nat`), so that the
  back-reference assignment performed by
  `DMCoordinateBounds.from_coordinate` is expressible as a value update;
* fallible construction (`__post_init__` validation raising `ValueError`,
  assertions, attribute errors) becomes `Except DMError`.
-/

/-- `DMAxis`: the enumeration `X Y Z T BOUNDS OTHER` from `data_model.py`. -/
inductive DMAxis where
  | X
  | Y
  | Z
  | T
  | BOUNDS
  | OTHER
deriving DecidableEq, Repr

/-- The `.name` attribute of an enum member, as used by
`getattr(c.axis, 'name', '')` in `DMDimensions.__post_init__`. -/
def DMAxis.name : DMAxis → String
  | .X => "X"
  | .Y => "Y"
  | .Z => "Z"
  | .T => "T"
  | .BOUNDS => "BOUNDS"
  | .OTHER => "OTHER"

/-- `DMAxis.spatiotemporal_names = ('X', 'Y', 'Z', 'T')`. -/
def DMAxis.spatiotemporal_names : List String := ["X", "Y", "Z", "T"]

/-- Modelled from the spec: `datelabel.AbstractDateRange` (the `datelabel`
module is not under `src/`).  The spec treats date ranges as opaque values
supporting equality, with a distinguished "fixed/no-time" sentinel
(`datelabel.FXDateRange`); `interval` stands for any concrete range. -/
inductive DateRange where
  | FX
  | interval (first last : Nat)
deriving DecidableEq, Repr

/-- The distinguished fixed/no-time sentinel `datelabel.FXDateRange`. -/
def FXDateRange : DateRange := DateRange.FX

/-- Modelled from the spec: `datelabel.AbstractDateFrequency`, an opaque
comparable value (not under `src/`). -/
structure DateFrequency where
  code : Nat
deriving DecidableEq, Repr

/-- `DMCoordinate`: generic coordinate variable (fields `name`,
`standard_name`, `units`, `axis = OTHER` by default, `bounds = None`).
The `bounds` field holds an opaque reference to a `DMCoordinateBounds`
object, or `none`. -/
structure DMCoordinate where
  name : String
  standard_name : String
  units : String
  axis : DMAxis := DMAxis.OTHER
  bounds : Option Nat := none
deriving DecidableEq, Repr

/-- `DMLongitudeCoordinate` (class constants: `standard_name = 'longitude'`,
`units = 'degrees_E'`, `axis = X`). -/
structure DMLongitudeCoordinate where
  name : String
  bounds : Option Nat := none
deriving DecidableEq, Repr

/-- `DMLatitudeCoordinate` (class constants: `standard_name = 'latitude'`,
`units = 'degrees_N'`, `axis = Y`). -/
structure DMLatitudeCoordinate where
  name : String
  bounds : Option Nat := none
deriving DecidableEq, Repr

/-- `DMVerticalCoordinate` (class constant: `axis = Z`). -/
structure DMVerticalCoordinate where
  name : String
  standard_name : String
  units : String := "1"
  positive : String
  bounds : Option Nat := none
deriving DecidableEq, Repr

/-- `DMParametricVerticalCoordinate`, subclass of `DMVerticalCoordinate`.
Dataclass fields in order: the inherited `name`, `standard_name`, `units`,
`positive`, `bounds`, plus `computed_standard_name`, `long_name` and
`formula_terms`; `formula_terms` is declared with `compare=False`, see
`DMParametricVerticalCoordinate.pyEq` below. -/
structure DMParametricVerticalCoordinate where
  name : String
  standard_name : String
  units : String := "1"
  positive : String
  bounds : Option Nat := none
  computed_standard_name : String := ""
  long_name : String := ""
  formula_terms : Option String := none
deriving DecidableEq, Repr

/-- `DMTimeCoordinate` (class constants: `standard_name = 'time'`,
`axis = T`).  `range` and `frequency` default to `None`. -/
structure DMTimeCoordinate where
  name : String
  units : String
  calendar : String
  range : Option DateRange := none
  frequency : Option DateFrequency := none
  bounds : Option Nat := none
deriving DecidableEq, Repr

/-- `DMTimeCoordinate.is_static`: `self.range == datelabel.FXDateRange`.
A `None` range compares unequal to the sentinel object, hence `false`. -/
def DMTimeCoordinate.is_static (t : DMTimeCoordinate) : Bool :=
  decide (t.range = some FXDateRange)

/-- `DMBoundsDimension` (class constants: `standard_name = 'bounds'`,
`units = '1'`, `axis = BOUNDS`, `bounds = None`). -/
structure DMBoundsDimension where
  name : String
deriving DecidableEq, Repr

/-- `DMScalarCoordinate = DMCoordinate + DMScalarCoordinateMixin`:
all `DMCoordinate` fields plus `value`. -/
structure DMScalarCoordinate where
  name : String
  standard_name : String
  units : String
  axis : DMAxis := DMAxis.OTHER
  bounds : Option Nat := none
  value : Option Int := none
deriving DecidableEq, Repr

/-- `DMScalarVerticalCoordinate = DMVerticalCoordinate +
DMScalarCoordinateMixin`: all `DMVerticalCoordinate` fields plus `value`. -/
structure DMScalarVerticalCoordinate where
  name : String
  standard_name : String
  units : String := "1"
  positive : String
  bounds : Option Nat := none
  value : Option Int := none
deriving DecidableEq, Repr

/-- The `AbstractDMCoordinate` interface: the sum of all registered
coordinate variants (including the two scalar variants registered on
`AbstractDMScalarCoordinate`). -/
inductive Coord where
  | coordinate (c : DMCoordinate)
  | longitude (c : DMLongitudeCoordinate)
  | latitude (c : DMLatitudeCoordinate)
  | vertical (c : DMVerticalCoordinate)
  | parametricVertical (c : DMParametricVerticalCoordinate)
  | time (c : DMTimeCoordinate)
  | boundsDim (c : DMBoundsDimension)
  | scalarCoordinate (c : DMScalarCoordinate)
  | scalarVertical (c : DMScalarVerticalCoordinate)
deriving DecidableEq, Repr

/-- Shared accessor `name`. -/
def Coord.name : Coord → String
  | .coordinate c => c.name
  | .longitude c => c.name
  | .latitude c => c.name
  | .vertical c => c.name
  | .parametricVertical c => c.name
  | .time c => c.name
  | .boundsDim c => c.name
  | .scalarCoordinate c => c.name
  | .scalarVertical c => c.name

/-- Shared accessor `standard_name` (class constants for the variants that
fix it). -/
def Coord.standard_name : Coord → String
  | .coordinate c => c.standard_name
  | .longitude _ => "longitude"
  | .latitude _ => "latitude"
  | .vertical c => c.standard_name
  | .parametricVertical c => c.standard_name
  | .time _ => "time"
  | .boundsDim _ => "bounds"
  | .scalarCoordinate c => c.standard_name
  | .scalarVertical c => c.standard_name

/-- Shared accessor `units` (class constants for the variants that fix it). -/
def Coord.units : Coord → String
  | .coordinate c => c.units
  | .longitude _ => "degrees_E"
  | .latitude _ => "degrees_N"
  | .vertical c => c.units
  | .parametricVertical c => c.units
  | .time c => c.units
  | .boundsDim _ => "1"
  | .scalarCoordinate c => c.units
  | .scalarVertical c => c.units

/-- Shared accessor `axis` (class constants for the variants that fix it). -/
def Coord.axis : Coord → DMAxis
  | .coordinate c => c.axis
  | .longitude _ => DMAxis.X
  | .latitude _ => DMAxis.Y
  | .vertical _ => DMAxis.Z
  | .parametricVertical _ => DMAxis.Z
  | .time _ => DMAxis.T
  | .boundsDim _ => DMAxis.BOUNDS
  | .scalarCoordinate c => c.axis
  | .scalarVertical _ => DMAxis.Z

/-- `getattr(c.axis, 'name', '')` as used throughout
`DMDimensions.__post_init__` (every variant has an `axis`, so the `''`
default never fires). -/
def Coord.axisName (c : Coord) : String := c.axis.name

/-- Shared accessor `bounds` (`DMBoundsDimension` fixes `bounds = None`). -/
def Coord.bounds : Coord → Option Nat
  | .coordinate c => c.bounds
  | .longitude c => c.bounds
  | .latitude c => c.bounds
  | .vertical c => c.bounds
  | .parametricVertical c => c.bounds
  | .time c => c.bounds
  | .boundsDim _ => none
  | .scalarCoordinate c => c.bounds
  | .scalarVertical c => c.bounds

/-- The assignment `coord.bounds = ...` performed by
`DMCoordinateBounds.from_coordinate`, as a value update.  On a
`DMBoundsDimension` the Python assignment would shadow the class constant,
but that case is unreachable: construction rejects a BOUNDS-axis `coord`
before the assignment runs, so the variant is returned unchanged. -/
def Coord.withBounds : Coord → Option Nat → Coord
  | .coordinate c, b => .coordinate { c with bounds := b }
  | .longitude c, b => .longitude { c with bounds := b }
  | .latitude c, b => .latitude { c with bounds := b }
  | .vertical c, b => .vertical { c with bounds := b }
  | .parametricVertical c, b => .parametricVertical { c with bounds := b }
  | .time c, b => .time { c with bounds := b }
  | .boundsDim c, _ => .boundsDim c
  | .scalarCoordinate c, b => .scalarCoordinate { c with bounds := b }
  | .scalarVertical c, b => .scalarVertical { c with bounds := b }

/-- Attribute lookup `c.is_static`: only `DMTimeCoordinate` defines the
property; on any other variant the lookup raises `AttributeError`,
modelled by `none`. -/
def Coord.is_static : Coord → Option Bool
  | .time t => some t.is_static
  | _ => none

/-- The `ValueError` / `AssertionError` / `AttributeError` outcomes raised
by `data_model.py`, as structured values.  `duplicateAxis` carries the axis
name and the two conflicting coordinates interpolated into the message of
`DMDimensions.__post_init__` (current element first, previously recorded
element second); `scalarCoordsOnBounds` and `improperDims` are the two
`ValueError`s of `DMCoordinateBounds.__post_init__`; `missingBoundsCoord`
is the bare `raise ValueError` of the `coord` accessor; `recursionError`
is the `RecursionError` raised when `dataclasses.asdict` recurses through
a coordinate's non-`None` `bounds` back-reference (see
`DMScalarCoordinateMixin.from_coordinate`). -/
inductive DMError where
  | duplicateAxis (axis : String) (c1 c2 : Coord)
  | scalarCoordsOnBounds (name : String) (scalar_coords : List Coord)
  | improperDims (name : String) (dims : List Coord)
  | typeMismatch
  | missingBoundsCoord
  | attributeError (attr : String)
  | assertionError
  | recursionError
deriving DecidableEq, Repr

/-- Whether an error is one of the two "malformed-bounds" `ValueError`s of
`DMCoordinateBounds.__post_init__` (the spec's malformed-bounds taxon). -/
def DMError.isMalformedBounds : DMError → Bool
  | .scalarCoordsOnBounds _ _ => true
  | .improperDims _ _ => true
  | _ => false

/-- Lookup in the `temp_d` dict of `DMDimensions.__post_init__`
(association list, newest binding first). -/
def dictGet : List (String × Coord) → String → Option Coord
  | [], _ => none
  | (k, v) :: es, a => if a = k then some v else dictGet es a

/-- The validation loop of `DMDimensions.__post_init__`:
`for c in itertools.chain(self.dims, self.scalar_coords): ...`.
For each coordinate, if its axis name is not `'OTHER'` and is already a key
of `temp_d`, raise the duplicate-axis `ValueError`; otherwise record the
coordinate under its axis name (Python dict update, modelled by prepending
the newest binding). -/
def dupLoop : List Coord → List (String × Coord) → Except DMError (List (String × Coord))
  | [], temp_d => .ok temp_d
  | c :: cs, temp_d =>
    match dictGet temp_d c.axisName with
    | some c0 =>
      if c.axisName = "OTHER" then dupLoop cs ((c.axisName, c) :: temp_d)
      else .error (.duplicateAxis c.axisName c c0)
    | none => dupLoop cs ((c.axisName, c) :: temp_d)

/-- The `axes` / `phys_axes` dict: one slot per spatiotemporal axis name,
initialized to `None` (`dict((x, None) for x in DMAxis.spatiotemporal_names)`). -/
structure AxesD where
  X : Option Coord
  Y : Option Coord
  Z : Option Coord
  T : Option Coord
deriving DecidableEq, Repr

/-- The freshly initialized axes dict (all four slots `None`). -/
def AxesD.empty : AxesD := ⟨none, none, none, none⟩

/-- Dict lookup `axes[k]` (the dicts built by `__post_init__` only ever
have the four spatiotemporal keys). -/
def AxesD.get (a : AxesD) (k : String) : Option Coord :=
  if k = "X" then a.X
  else if k = "Y" then a.Y
  else if k = "Z" then a.Z
  else if k = "T" then a.T
  else none

/-- The guarded dict update
`if axis in DMAxis.spatiotemporal_names: self.axes[axis] = c`
(no effect for a non-spatiotemporal axis name). -/
def AxesD.setSpatio (a : AxesD) (k : String) (c : Coord) : AxesD :=
  if k = "X" then { a with X := some c }
  else if k = "Y" then { a with Y := some c }
  else if k = "Z" then { a with Z := some c }
  else if k = "T" then { a with T := some c }
  else a

/-- The fill loops of `__post_init__`: iterate a coordinate list, writing
each spatiotemporal coordinate into its axis slot. -/
def buildAxesLoop : AxesD → List Coord → AxesD
  | a, [] => a
  | a, c :: cs => buildAxesLoop (a.setSpatio c.axisName c) cs

/-- `DMDimensions`: `dims` (ordered), `scalar_coords`, and the two derived
maps computed by `__post_init__`.  `scalar_coords` is a Python `set`;
it is carried as a list, fixing one iteration order. -/
structure DMDimensions where
  dims : List Coord
  scalar_coords : List Coord
  axes : AxesD
  phys_axes : AxesD
deriving DecidableEq, Repr

/-- Construction of a `DMDimensions`, i.e. `DMDimensions.__post_init__`:
run the duplicate-axis validation over `chain(dims, scalar_coords)`, then
build `axes` from `dims` and `phys_axes` by overlaying `scalar_coords`
on a copy of `axes`. -/
def DMDimensions.mk? (dims scalar_coords : List Coord) : Except DMError DMDimensions :=
  match dupLoop (dims ++ scalar_coords) [] with
  | .error e => .error e
  | .ok _ =>
    let axes := buildAxesLoop AxesD.empty dims
    let phys_axes := buildAxesLoop axes scalar_coords
    .ok ⟨dims, scalar_coords, axes, phys_axes⟩

/-- Property `X`: `self.axes['X']`. -/
def DMDimensions.X (d : DMDimensions) : Option Coord := d.axes.get "X"

/-- Property `Y`: `self.axes['Y']`. -/
def DMDimensions.Y (d : DMDimensions) : Option Coord := d.axes.get "Y"

/-- Property `Z`: `self.axes['Z']`. -/
def DMDimensions.Z (d : DMDimensions) : Option Coord := d.axes.get "Z"

/-- Property `T`: `self.axes['T']`. -/
def DMDimensions.T (d : DMDimensions) : Option Coord := d.axes.get "T"

/-- Property `is_static`: `(self.T is None) or (self.T.is_static)`.
`none` models the `AttributeError` raised when the `T` slot holds a
coordinate without an `is_static` attribute. -/
def DMDimensions.is_static (d : DMDimensions) : Option Bool :=
  match d.T with
  | none => some true
  | some c => c.is_static

/-- `DMDimensions.replace_date_range(self, new_range)`.  The method runs
`assert not self.is_static`, builds
`new_T = dataclasses.replace(self.T, range=new_range)`, and then executes
`self.T = new_T`.  `T` is a `@property` with no setter, so that final
assignment raises `AttributeError` on every aggregate that reaches it;
the successful-update branch of the source is unreachable. -/
def DMDimensions.replace_date_range (d : DMDimensions) (_new_range : Option DateRange) :
    Except DMError DMDimensions :=
  match d.is_static with
  | none => .error (.attributeError "is_static")
  | some true => .error .assertionError
  | some false => .error (.attributeError "T")

/-- `DMCoordinateBounds`, a `DMAuxiliaryCoordinate` (hence a `DMDimensions`
plus `name`, `standard_name`, `units`). -/
structure DMCoordinateBounds where
  name : String
  standard_name : String
  units : String
  dims : List Coord
  scalar_coords : List Coord
  axes : AxesD
  phys_axes : AxesD
deriving DecidableEq, Repr

/-- Construction of a `DMCoordinateBounds`, i.e. its `__post_init__`:
first `super().__post_init__()` (the `DMDimensions` duplicate-axis check
and axis-map construction), then reject a non-empty `scalar_coords`, then
reject `dims` unless it has exactly two members including a BOUNDS-axis
one. -/
def DMCoordinateBounds.mk? (name standard_name units : String)
    (dims scalar_coords : List Coord) : Except DMError DMCoordinateBounds :=
  match dupLoop (dims ++ scalar_coords) [] with
  | .error e => .error e
  | .ok _ =>
    let axes := buildAxesLoop AxesD.empty dims
    let phys_axes := buildAxesLoop axes scalar_coords
    if scalar_coords ≠ [] then
      .error (.scalarCoordsOnBounds name scalar_coords)
    else if dims.length ≠ 2 ∨ ¬ dims.any (fun c => decide (c.axis = DMAxis.BOUNDS)) then
      .error (.improperDims name dims)
    else
      .ok ⟨name, standard_name, units, dims, scalar_coords, axes, phys_axes⟩

/-- Property `coord`: scan `dims` for the first member whose axis is not
BOUNDS; `raise ValueError` if none is found. -/
def DMCoordinateBounds.coord (cb : DMCoordinateBounds) : Except DMError Coord :=
  match cb.dims.find? (fun c => decide (c.axis ≠ DMAxis.BOUNDS)) with
  | some c => .ok c
  | none => .error .missingBoundsCoord

/-- `DMCoordinateBounds.from_coordinate(cls, coord, bounds_dim)`: copy
`name`/`standard_name`/`units` from `coord`, build a `DMBoundsDimension`
when `bounds_dim` is a raw name, construct the bounds object with
`dims = (coord, bounds_dim)` and empty `scalar_coords`, then execute
`coord.bounds = coord_bounds`.  `newId` is the identity under which the
caller registers the created object; the returned pair is the created
bounds object together with the post-assignment state of `coord` (the
object stored in `dims` is that same mutated object, so `dims` carries the
updated value). -/
def DMCoordinateBounds.from_coordinate (coord : Coord)
    (bounds_dim : String ⊕ DMBoundsDimension) (newId : Nat) :
    Except DMError (DMCoordinateBounds × Coord) :=
  let bdim : DMBoundsDimension :=
    match bounds_dim with
    | .inl s => ⟨s⟩
    | .inr b => b
  let coord' := coord.withBounds (some newId)
  match DMCoordinateBounds.mk? coord.name coord.standard_name coord.units
      [coord', Coord.boundsDim bdim] [] with
  | .error e => .error e
  | .ok cb => .ok (cb, coord')

/-- The two scalar classes `DMScalarCoordinateMixin.from_coordinate` can be
invoked on (the `cls` argument of the classmethod). -/
inductive ScalarCls where
  | scalarCoordinate
  | scalarVertical
deriving DecidableEq, Repr

/-- `DMScalarCoordinateMixin.from_coordinate(cls, coord, value)`.  The
guard `issubclass(cls, coord.__class__)` holds over the embedded class
universe exactly for `coord` of class `DMCoordinate` or
`DMScalarCoordinate` when `cls = DMScalarCoordinate`, and for `coord` of
class `DMVerticalCoordinate` or `DMScalarVerticalCoordinate` when
`cls = DMScalarVerticalCoordinate`; every other combination raises the
type-mismatch `ValueError`.  `dataclasses.asdict(coord)` converts the
instance recursively: with `bounds = None` it yields a plain dict of
`coord`'s field values, `kwargs['value'] = value` overrides the value,
and `cls(**kwargs)` builds the new instance (the `util.mdtf_dataclass`
reconstruction is modelled from the spec as plain field assignment).
With a non-`None` `bounds`, however, `asdict` recurses into the
referenced `DMCoordinateBounds` object; the reference identifiers of this
embedding are issued by `DMCoordinateBounds.from_coordinate`, whose
created object's `dims` contains the back-linked coordinate itself, so
the recursion revisits `coord` and Python raises `RecursionError` —
modelled by the `recursionError` outcome.  In no bounds-set case does the
factory return a scalar coordinate carrying the original reference. -/
def DMScalarCoordinateMixin.from_coordinate (cls : ScalarCls) (coord : Coord)
    (value : Option Int) : Except DMError Coord :=
  match cls, coord with
  | .scalarCoordinate, .coordinate b =>
    match b.bounds with
    | some _ => .error .recursionError
    | none => .ok (.scalarCoordinate ⟨b.name, b.standard_name, b.units, b.axis, none, value⟩)
  | .scalarCoordinate, .scalarCoordinate b =>
    match b.bounds with
    | some _ => .error .recursionError
    | none => .ok (.scalarCoordinate { b with value := value })
  | .scalarVertical, .vertical b =>
    match b.bounds with
    | some _ => .error .recursionError
    | none => .ok (.scalarVertical ⟨b.name, b.standard_name, b.units, b.positive, none, value⟩)
  | .scalarVertical, .scalarVertical b =>
    match b.bounds with
    | some _ => .error .recursionError
    | none => .ok (.scalarVertical { b with value := value })
  | _, _ => .error .typeMismatch

/-- Dataclass equality of `DMParametricVerticalCoordinate`: field-by-field
over the compared fields; `formula_terms` is declared with `compare=False`
and so is excluded. -/
def DMParametricVerticalCoordinate.pyEq (a b : DMParametricVerticalCoordinate) : Bool :=
  decide (a.name = b.name ∧ a.standard_name = b.standard_name ∧ a.units = b.units ∧
    a.positive = b.positive ∧ a.bounds = b.bounds ∧
    a.computed_standard_name = b.computed_standard_name ∧ a.long_name = b.long_name)

/-- Dataclass equality of `DMTimeCoordinate`: field-by-field over all
fields, `range` included. -/
def DMTimeCoordinate.pyEq (a b : DMTimeCoordinate) : Bool :=
  decide (a.name = b.name ∧ a.units = b.units ∧ a.calendar = b.calendar ∧
    a.range = b.range ∧ a.frequency = b.frequency ∧ a.bounds = b.bounds)

/-- Axis-uniqueness relation between two positions of the coordinate
sequence: equal axis names are only allowed for the OTHER kind. -/
def keyOK (c1 c2 : Coord) : Prop := c1.axisName = c2.axisName → c1.axisName = "OTHER"

lemma dictGet_cons_none (k0 : String) (v : Coord) (d : List (String × Coord)) (a : String)
    (h : dictGet ((k0, v) :: d) a = none) : dictGet d a = none := by
  by_cases hak : a = k0
  · simp [dictGet, hak] at h
  · simpa [dictGet, hak] using h

lemma dictGet_mem (d : List (String × Coord)) (a : String) (v : Coord)
    (h : dictGet d a = some v) : (a, v) ∈ d := by
  induction d with
  | nil => exact Option.noConfusion h
  | cons p es ih =>
    obtain ⟨k, w⟩ := p
    by_cases hak : a = k
    · simp only [dictGet, if_pos hak] at h
      subst hak
      exact (Option.some_inj.mp h) ▸ List.mem_cons_self _ _
    · simp only [dictGet, if_neg hak] at h
      exact List.mem_cons_of_mem _ (ih h)

lemma dictGet_cons_isSome (k0 : String) (v : Coord) (d : List (String × Coord)) (a : String)
    (h : (dictGet d a).isSome) : (dictGet ((k0, v) :: d) a).isSome := by
  by_cases hak : a = k0
  · simp [dictGet, hak]
  · simpa [dictGet, hak] using h

lemma dupLoop_ok_lookup (l : List Coord) (d d' : List (String × Coord))
    (h : dupLoop l d = .ok d') :
    ∀ c ∈ l, c.axisName ≠ "OTHER" → dictGet d c.axisName = none := by
  induction l generalizing d with
  | nil => intro c hc; exact absurd hc (List.not_mem_nil c)
  | cons x xs ih =>
    intro c hc hother
    rcases List.mem_cons.mp hc with rfl | hc'
    · cases hg : dictGet d c.axisName with
      | none => rfl
      | some c0 =>
        exfalso
        simp only [dupLoop, hg, if_neg hother] at h
        exact Except.noConfusion h
    · cases hg : dictGet d x.axisName with
      | none =>
        simp only [dupLoop, hg] at h
        exact dictGet_cons_none _ _ _ _ (ih _ h c hc' hother)
      | some c0 =>
        by_cases hxo : x.axisName = "OTHER"
        · simp only [dupLoop, hg, if_pos hxo] at h
          exact dictGet_cons_none _ _ _ _ (ih _ h c hc' hother)
        · exfalso
          simp only [dupLoop, hg, if_neg hxo] at h
          exact Except.noConfusion h

lemma dupLoop_step_ok (x : Coord) (xs : List Coord) (d d' : List (String × Coord))
    (h : dupLoop (x :: xs) d = .ok d') :
    dupLoop xs ((x.axisName, x) :: d) = .ok d' := by
  cases hg : dictGet d x.axisName with
  | none => simpa only [dupLoop, hg] using h
  | some c0 =>
    by_cases hxo : x.axisName = "OTHER"
    · simpa only [dupLoop, hg, if_pos hxo] using h
    · exfalso
      simp only [dupLoop, hg, if_neg hxo] at h
      exact Except.noConfusion h

lemma dupLoop_ok_pairwise (l : List Coord) (d d' : List (String × Coord))
    (h : dupLoop l d = .ok d') : l.Pairwise keyOK := by
  induction l generalizing d with
  | nil => exact List.Pairwise.nil
  | cons x xs ih =>
    have hstep := dupLoop_step_ok x xs d d' h
    refine List.pairwise_cons.mpr ⟨?_, ih _ hstep⟩
    intro c' hc' heq
    by_contra hother
    have h1 : c'.axisName ≠ "OTHER" := heq ▸ hother
    have h2 := dupLoop_ok_lookup _ _ _ hstep c' hc' h1
    rw [← heq] at h2
    simp [dictGet] at h2

lemma dupLoop_ok_of_distinct (l : List Coord) (d : List (String × Coord))
    (hd : ∀ c ∈ l, c.axisName ≠ "OTHER" → dictGet d c.axisName = none)
    (hl : l.Pairwise keyOK) : ∃ d', dupLoop l d = .ok d' := by
  induction l generalizing d with
  | nil => exact ⟨d, rfl⟩
  | cons x xs ih =>
    rcases List.pairwise_cons.mp hl with ⟨hx, hxs⟩
    have hstep : ∀ c ∈ xs, c.axisName ≠ "OTHER" →
        dictGet ((x.axisName, x) :: d) c.axisName = none := by
      intro c hc hother
      have hne : c.axisName ≠ x.axisName := by
        intro hereq
        exact hother (hereq.trans (hx c hc hereq.symm))
      simp only [dictGet, if_neg hne]
      exact hd c (List.mem_cons_of_mem _ hc) hother
    by_cases hxo : x.axisName = "OTHER"
    · obtain ⟨d', hd'⟩ := ih _ hstep hxs
      cases hg : dictGet d x.axisName with
      | none => exact ⟨d', by simpa only [dupLoop, hg] using hd'⟩
      | some c0 => exact ⟨d', by simpa only [dupLoop, hg, if_pos hxo] using hd'⟩
    · obtain ⟨d', hd'⟩ := ih _ hstep hxs
      have hg := hd x (List.mem_cons_self _ _) hxo
      exact ⟨d', by simpa only [dupLoop, hg] using hd'⟩

lemma dupLoop_error_of_dup (l : List Coord) (d : List (String × Coord))
    (hgood : ∀ p ∈ d, (p.2 : Coord).axisName = p.1)
    (hbad : ¬ l.Pairwise keyOK ∨
      ∃ c ∈ l, c.axisName ≠ "OTHER" ∧ (dictGet d c.axisName).isSome) :
    ∃ a c1 c2, dupLoop l d = .error (.duplicateAxis a c1 c2) ∧
      c1.axisName = a ∧ c2.axisName = a ∧ a ≠ "OTHER" ∧
      c1 ∈ l ∧ (c2 ∈ l ∨ (a, c2) ∈ d) := by
  induction l generalizing d with
  | nil =>
    exfalso
    rcases hbad with hb | ⟨c, hc, _⟩
    · exact hb List.Pairwise.nil
    · exact List.not_mem_nil c hc
  | cons x xs ih =>
    by_cases herr : x.axisName ≠ "OTHER" ∧ (dictGet d x.axisName).isSome
    · rcases herr with ⟨hxo, hsome⟩
      rcases Option.isSome_iff_exists.mp hsome with ⟨c0, hc0⟩
      have hmem : (x.axisName, c0) ∈ d := dictGet_mem _ _ _ hc0
      refine ⟨x.axisName, x, c0, ?_, rfl, hgood _ hmem, hxo,
        List.mem_cons_self _ _, Or.inr hmem⟩
      simp only [dupLoop, hc0, if_neg hxo]
    · -- no error at the head: the loop steps to the extended dict
      have hgood2 : ∀ p ∈ ((x.axisName, x) :: d), (p.2 : Coord).axisName = p.1 := by
        intro p hp
        rcases List.mem_cons.mp hp with rfl | hp'
        · rfl
        · exact hgood p hp'
      have hbad2 : ¬ xs.Pairwise keyOK ∨
          ∃ c ∈ xs, c.axisName ≠ "OTHER" ∧
            (dictGet ((x.axisName, x) :: d) c.axisName).isSome := by
        rcases hbad with hb | ⟨c, hc, hco, hcsome⟩
        · by_cases hPxs : xs.Pairwise keyOK
          · -- the conflict is between the head and some tail element
            have hex : ∃ c' ∈ xs, x.axisName = c'.axisName ∧ x.axisName ≠ "OTHER" := by
              by_contra hno
              push_neg at hno
              exact hb (List.pairwise_cons.mpr ⟨fun c' h => hno c' h, hPxs⟩)
            obtain ⟨c', hc', heq, hxo⟩ := hex
            refine Or.inr ⟨c', hc', heq ▸ hxo, ?_⟩
            rw [← heq]
            simp [dictGet]
          · exact Or.inl hPxs
        · rcases List.mem_cons.mp hc with rfl | hc'
          · exact absurd ⟨hco, hcsome⟩ herr
          · exact Or.inr ⟨c, hc', hco, dictGet_cons_isSome _ _ _ _ hcsome⟩
      obtain ⟨a, c1, c2, he, h1, h2, h3, h4, h5⟩ := ih _ hgood2 hbad2
      refine ⟨a, c1, c2, ?_, h1, h2, h3, List.mem_cons_of_mem _ h4, ?_⟩
      · -- the head step does not error
        cases hg : dictGet d x.axisName with
        | none => simpa only [dupLoop, hg] using he
        | some c0 =>
          have hxo : x.axisName = "OTHER" := by
            by_contra hxo
            exact herr ⟨hxo, by simp [hg]⟩
          simpa only [dupLoop, hg, if_pos hxo] using he
      · rcases h5 with h5 | h5
        · exact Or.inl (List.mem_cons_of_mem _ h5)
        · rcases List.mem_cons.mp h5 with heq2 | h5'
          · have : c2 = x := congrArg Prod.snd heq2
            exact Or.inl (this ▸ List.mem_cons_self _ _)
          · exact Or.inr h5'

lemma AxesD.get_empty (k : String) : AxesD.empty.get k = none := by
  unfold AxesD.get AxesD.empty
  split_ifs <;> rfl

lemma AxesD.get_setSpatio_self (a : AxesD) (k : String) (c : Coord)
    (hk : k ∈ DMAxis.spatiotemporal_names) : (a.setSpatio k c).get k = some c := by
  simp only [DMAxis.spatiotemporal_names, List.mem_cons, List.mem_singleton,
    List.not_mem_nil, or_false] at hk
  rcases hk with rfl | rfl | rfl | rfl <;> rfl

lemma AxesD.get_setSpatio_other (a : AxesD) (k' k : String) (c : Coord)
    (hne : k' ≠ k) : (a.setSpatio k' c).get k = a.get k := by
  unfold AxesD.setSpatio AxesD.get
  split_ifs <;> simp_all

lemma AxesD.get_setSpatio_cases (a : AxesD) (k' k : String) (x c : Coord)
    (h : (a.setSpatio k' x).get k = some c) : a.get k = some c ∨ c = x := by
  by_cases hne : k' = k
  · subst hne
    by_cases hk : k' ∈ DMAxis.spatiotemporal_names
    · rw [AxesD.get_setSpatio_self _ _ _ hk] at h
      exact Or.inr (Option.some_inj.mp h).symm
    · -- a non-spatiotemporal key is never written
      simp only [DMAxis.spatiotemporal_names, List.mem_cons, List.mem_singleton,
        List.not_mem_nil, or_false, not_or] at hk
      obtain ⟨h1, h2, h3, h4⟩ := hk
      unfold AxesD.setSpatio at h
      rw [if_neg h1, if_neg h2, if_neg h3, if_neg h4] at h
      exact Or.inl h
  · rw [AxesD.get_setSpatio_other _ _ _ _ hne] at h
    exact Or.inl h

lemma buildAxesLoop_get_of_not_mem (l : List Coord) (a : AxesD) (k : String)
    (h : ∀ c ∈ l, c.axisName ≠ k) : (buildAxesLoop a l).get k = a.get k := by
  induction l generalizing a with
  | nil => rfl
  | cons c cs ih =>
    simp only [buildAxesLoop]
    rw [ih _ (fun c' hc' => h c' (List.mem_cons_of_mem _ hc')),
      AxesD.get_setSpatio_other _ _ _ _ (h c (List.mem_cons_self _ _))]

lemma buildAxesLoop_get_unique (l : List Coord) (a : AxesD) (k : String)
    (hk : k ∈ DMAxis.spatiotemporal_names)
    (hone : l.Pairwise fun c1 c2 => c1.axisName = k → c2.axisName ≠ k) :
    (buildAxesLoop a l).get k =
      (l.find? (fun c => decide (c.axisName = k))).or (a.get k) := by
  induction l generalizing a with
  | nil => simp [buildAxesLoop]
  | cons c cs ih =>
    rcases List.pairwise_cons.mp hone with ⟨hc, hcs⟩
    simp only [buildAxesLoop]
    by_cases hck : c.axisName = k
    · have hnone : ∀ c' ∈ cs, c'.axisName ≠ k := fun c' h' => hc c' h' hck
      rw [buildAxesLoop_get_of_not_mem _ _ _ hnone, hck,
        AxesD.get_setSpatio_self _ _ _ hk,
        List.find?_cons_of_pos _ (by simpa using hck), Option.or_some]
    · rw [ih _ hcs, List.find?_cons_of_neg _ (by simpa using hck),
        AxesD.get_setSpatio_other _ _ _ _ hck]

lemma buildAxesLoop_get_some (l : List Coord) (a : AxesD) (k : String) (c : Coord)
    (h : (buildAxesLoop a l).get k = some c) : a.get k = some c ∨ c ∈ l := by
  induction l generalizing a with
  | nil => exact Or.inl h
  | cons x xs ih =>
    simp only [buildAxesLoop] at h
    rcases ih _ h with h' | h'
    · rcases AxesD.get_setSpatio_cases _ _ _ _ _ h' with h'' | h''
      · exact Or.inl h''
      · exact Or.inr (h'' ▸ List.mem_cons_self _ _)
    · exact Or.inr (List.mem_cons_of_mem _ h')

lemma spatio_ne_OTHER (k : String) (hk : k ∈ DMAxis.spatiotemporal_names) : k ≠ "OTHER" := by
  simp only [DMAxis.spatiotemporal_names, List.mem_cons, List.mem_singleton,
    List.not_mem_nil, or_false] at hk
  rcases hk with rfl | rfl | rfl | rfl <;> decide

lemma pairwise_key_of_keyOK (l : List Coord) (k : String)
    (hk : k ∈ DMAxis.spatiotemporal_names) (hp : l.Pairwise keyOK) :
    l.Pairwise fun c1 c2 => c1.axisName = k → c2.axisName ≠ k := by
  refine hp.imp ?_
  intro c1 c2 h h1 h2
  exact spatio_ne_OTHER k hk (h1.symm.trans (h (h1.trans h2.symm)))

/-- Claim C2: whenever two entries of the concatenation of `dims` and
`scalar_coords` carry the same axis kind other than OTHER (BOUNDS
included), `DMDimensions` construction fails with a duplicate-axis error
whose payload names the shared axis and two conflicting coordinates of the
input. -/
theorem C2_duplicate_axis_error (dims scalar_coords : List Coord)
    (h : ∃ i j : Fin (dims ++ scalar_coords).length, i < j ∧
      ((dims ++ scalar_coords).get i).axisName = ((dims ++ scalar_coords).get j).axisName ∧
      ((dims ++ scalar_coords).get i).axisName ≠ "OTHER") :
    ∃ a c1 c2, DMDimensions.mk? dims scalar_coords = .error (DMError.duplicateAxis a c1 c2) ∧
      c1 ∈ dims ++ scalar_coords ∧ c2 ∈ dims ++ scalar_coords ∧
      c1.axisName = a ∧ c2.axisName = a ∧ a ≠ "OTHER" := by
  obtain ⟨i, j, hij, heq, hother⟩ := h
  have hnp : ¬ (dims ++ scalar_coords).Pairwise keyOK := by
    intro hp
    exact hother ((List.pairwise_iff_get.mp hp) i j hij heq)
  obtain ⟨a, c1, c2, herr, h1, h2, h3, h4, h5⟩ :=
    dupLoop_error_of_dup (dims ++ scalar_coords) []
      (fun p hp => absurd hp (List.not_mem_nil p)) (Or.inl hnp)
  refine ⟨a, c1, c2, ?_, h4, ?_, h1, h2, h3⟩
  · simp only [DMDimensions.mk?, herr]
  · rcases h5 with h5 | h5
    · exact h5
    · exact absurd h5 (List.not_mem_nil _)

/-- Witness for C2 at a concrete input: two latitude dimension coordinates
(both axis Y). -/
theorem C2_witness :
    (∃ i j : Fin ([Coord.latitude ⟨"lat", none⟩, Coord.latitude ⟨"lat2", none⟩] ++
        ([] : List Coord)).length, i < j ∧
      (([Coord.latitude ⟨"lat", none⟩, Coord.latitude ⟨"lat2", none⟩] ++
        ([] : List Coord)).get i).axisName =
      (([Coord.latitude ⟨"lat", none⟩, Coord.latitude ⟨"lat2", none⟩] ++
        ([] : List Coord)).get j).axisName ∧
      (([Coord.latitude ⟨"lat", none⟩, Coord.latitude ⟨"lat2", none⟩] ++
        ([] : List Coord)).get i).axisName ≠ "OTHER") ∧
    (∃ a c1 c2,
      DMDimensions.mk? [Coord.latitude ⟨"lat", none⟩, Coord.latitude ⟨"lat2", none⟩] [] =
        .error (DMError.duplicateAxis a c1 c2) ∧
      c1 ∈ [Coord.latitude ⟨"lat", none⟩, Coord.latitude ⟨"lat2", none⟩] ++ ([] : List Coord) ∧
      c2 ∈ [Coord.latitude ⟨"lat", none⟩, Coord.latitude ⟨"lat2", none⟩] ++ ([] : List Coord) ∧
      c1.axisName = a ∧ c2.axisName = a ∧ a ≠ "OTHER") :=
  ⟨by decide, C2_duplicate_axis_error _ _ (by decide)⟩

/-- Claim C3: for coordinates whose non-OTHER axis kinds are pairwise
distinct, `DMDimensions` construction succeeds and, for each
spatiotemporal axis name `k`, `axes[k]` is the unique `dims` entry with
axis name `k` (`find?` returns it, or `none` when no entry carries `k`). -/
theorem C3_distinct_axes_success (dims scalar_coords : List Coord)
    (_hkinds : ∀ c ∈ dims ++ scalar_coords,
      c.axisName ∈ DMAxis.spatiotemporal_names ∨ c.axisName = "OTHER")
    (hdist : ∀ i j : Fin (dims ++ scalar_coords).length, i < j →
      ((dims ++ scalar_coords).get i).axisName = ((dims ++ scalar_coords).get j).axisName →
      ((dims ++ scalar_coords).get i).axisName = "OTHER") :
    ∃ d, DMDimensions.mk? dims scalar_coords = .ok d ∧
      ∀ k ∈ DMAxis.spatiotemporal_names,
        d.axes.get k = dims.find? (fun c => decide (c.axisName = k)) := by
  have hp : (dims ++ scalar_coords).Pairwise keyOK :=
    List.pairwise_iff_get.mpr (fun i j hij => hdist i j hij)
  obtain ⟨td, htd⟩ := dupLoop_ok_of_distinct (dims ++ scalar_coords) []
    (fun c _ _ => rfl) hp
  refine ⟨⟨dims, scalar_coords, buildAxesLoop AxesD.empty dims,
    buildAxesLoop (buildAxesLoop AxesD.empty dims) scalar_coords⟩, ?_, ?_⟩
  · simp only [DMDimensions.mk?, htd]
  intro k hk
  have hpd : dims.Pairwise keyOK := (List.pairwise_append.mp hp).1
  rw [buildAxesLoop_get_unique dims AxesD.empty k hk
    (pairwise_key_of_keyOK dims k hk hpd), AxesD.get_empty, Option.or_none]

/-- Witness for C3 at a concrete input: a longitude dimension plus a
generic OTHER coordinate. -/
theorem C3_witness :
    (∀ c ∈ [Coord.longitude ⟨"lon", none⟩,
        Coord.coordinate ⟨"aux0", "misc", "1", DMAxis.OTHER, none⟩] ++ ([] : List Coord),
      c.axisName ∈ DMAxis.spatiotemporal_names ∨ c.axisName = "OTHER") ∧
    (∀ i j : Fin ([Coord.longitude ⟨"lon", none⟩,
        Coord.coordinate ⟨"aux0", "misc", "1", DMAxis.OTHER, none⟩] ++
        ([] : List Coord)).length, i < j →
      (([Coord.longitude ⟨"lon", none⟩,
        Coord.coordinate ⟨"aux0", "misc", "1", DMAxis.OTHER, none⟩] ++
        ([] : List Coord)).get i).axisName =
      (([Coord.longitude ⟨"lon", none⟩,
        Coord.coordinate ⟨"aux0", "misc", "1", DMAxis.OTHER, none⟩] ++
        ([] : List Coord)).get j).axisName →
      (([Coord.longitude ⟨"lon", none⟩,
        Coord.coordinate ⟨"aux0", "misc", "1", DMAxis.OTHER, none⟩] ++
        ([] : List Coord)).get i).axisName = "OTHER") ∧
    (∃ d, DMDimensions.mk? [Coord.longitude ⟨"lon", none⟩,
        Coord.coordinate ⟨"aux0", "misc", "1", DMAxis.OTHER, none⟩] [] = .ok d ∧
      ∀ k ∈ DMAxis.spatiotemporal_names,
        d.axes.get k = [Coord.longitude ⟨"lon", none⟩,
          Coord.coordinate ⟨"aux0", "misc", "1", DMAxis.OTHER, none⟩].find?
            (fun c => decide (c.axisName = k))) :=
  ⟨by decide, by decide, C3_distinct_axes_success _ _ (by decide) (by decide)⟩

/-- Claim C4: in a successfully constructed `DMDimensions`, a scalar
coordinate with a spatiotemporal axis kind never occupies any slot of
`axes`, but occupies its axis kind's slot of `phys_axes`. -/
theorem C4_scalar_in_phys_axes_only (dims scalar_coords : List Coord)
    (d : DMDimensions) (c : Coord)
    (hok : DMDimensions.mk? dims scalar_coords = .ok d)
    (hc : c ∈ scalar_coords)
    (hspatio : c.axisName ∈ DMAxis.spatiotemporal_names) :
    (∀ k, d.axes.get k ≠ some c) ∧ d.phys_axes.get c.axisName = some c := by
  obtain ⟨td, htd⟩ : ∃ td, dupLoop (dims ++ scalar_coords) [] = .ok td := by
    cases hd : dupLoop (dims ++ scalar_coords) [] with
    | error e =>
      rw [DMDimensions.mk?, hd] at hok
      exact Except.noConfusion hok
    | ok td => exact ⟨td, rfl⟩
  rw [DMDimensions.mk?, htd] at hok
  obtain rfl : (⟨dims, scalar_coords, buildAxesLoop AxesD.empty dims,
      buildAxesLoop (buildAxesLoop AxesD.empty dims) scalar_coords⟩ : DMDimensions) = d := by
    injection hok
  have hp : (dims ++ scalar_coords).Pairwise keyOK := dupLoop_ok_pairwise _ _ _ htd
  have hcross := (List.pairwise_append.mp hp).2.2
  have hnotdims : c ∉ dims := by
    intro hcd
    exact spatio_ne_OTHER _ hspatio (hcross c hcd c hc rfl)
  constructor
  · intro k heq
    rcases buildAxesLoop_get_some _ _ _ _ heq with h' | h'
    · rw [AxesD.get_empty] at h'
      exact Option.noConfusion h'
    · exact hnotdims h'
  · have hpsc : scalar_coords.Pairwise keyOK := (List.pairwise_append.mp hp).2.1
    rw [buildAxesLoop_get_unique scalar_coords _ c.axisName hspatio
      (pairwise_key_of_keyOK scalar_coords c.axisName hspatio hpsc)]
    -- the find? over scalar_coords returns c itself
    have hfs : (scalar_coords.find? (fun c' => decide (c'.axisName = c.axisName))).isSome := by
      rw [List.find?_isSome]
      exact ⟨c, hc, by simp⟩
    obtain ⟨x, hx⟩ := Option.isSome_iff_exists.mp hfs
    have hxmem : x ∈ scalar_coords := List.mem_of_find?_eq_some hx
    have hxkey : x.axisName = c.axisName := by simpa using List.find?_some hx
    have hxc : x = c := by
      by_contra hne
      have hsymm : (scalar_coords.Pairwise fun c1 c2 => keyOK c1 c2 ∨ keyOK c2 c1) :=
        hpsc.imp Or.inl
      have := List.Pairwise.forall (fun _ _ h => Or.symm h) hsymm hxmem hc hne
      rcases this with h' | h'
      · exact spatio_ne_OTHER _ hspatio (hxkey ▸ h' hxkey)
      · exact spatio_ne_OTHER _ hspatio (h' hxkey.symm)
    rw [hx, hxc, Option.or_some]

/-- A latitude dimension coordinate for the C4 witness. -/
def latC4 : Coord := Coord.latitude ⟨"lat", none⟩

/-- The scalar vertical coordinate (axis Z, value 500) of the C4 witness. -/
def svC4 : Coord := Coord.scalarVertical ⟨"lev", "air_pressure", "hPa", "down", none, some 500⟩

/-- The aggregate the C4 witness constructs. -/
def dC4 : DMDimensions :=
  ⟨[latC4], [svC4], ⟨none, some latC4, none, none⟩, ⟨none, some latC4, some svC4, none⟩⟩

/-- Witness for C4: the spec's own example, dims holding a latitude (axis Y)
and scalar_coords holding a scalar vertical coordinate (axis Z) with value
500: `axes['Z']` stays empty while `phys_axes['Z']` is the scalar. -/
theorem C4_witness :
    DMDimensions.mk? [latC4] [svC4] = .ok dC4 ∧
    dC4.axes.get "Z" ≠ some svC4 ∧
    dC4.phys_axes.get svC4.axisName = some svC4 :=
  ⟨rfl,
   (C4_scalar_in_phys_axes_only [latC4] [svC4] dC4 svC4 rfl (by decide) (by decide)).1 "Z",
   (C4_scalar_in_phys_axes_only [latC4] [svC4] dC4 svC4 rfl (by decide) (by decide)).2⟩

/-- Claim C9: `is_static` of a `DMDimensions` returns true exactly when the
`T` slot of `axes` is empty or holds a time coordinate whose `range` is
the fixed/no-time sentinel; a time coordinate with any other `range` makes
it false.  (Stated for every `DMDimensions` value, which subsumes the
successfully constructed ones.) -/
theorem C9_is_static_iff (d : DMDimensions) :
    (d.is_static = some true ↔
      d.T = none ∨ ∃ t, d.T = some (Coord.time t) ∧ t.range = some FXDateRange) ∧
    (∀ t : DMTimeCoordinate, d.T = some (Coord.time t) →
      t.range ≠ some FXDateRange → d.is_static = some false) := by
  constructor
  · constructor
    · intro h
      rw [DMDimensions.is_static] at h
      cases hT : d.T with
      | none => exact Or.inl rfl
      | some c =>
        rw [hT] at h
        cases c <;> simp [Coord.is_static] at h
        case time t =>
          exact Or.inr ⟨t, rfl, by simpa [DMTimeCoordinate.is_static] using h⟩
    · intro h
      rcases h with hT | ⟨t, hT, hr⟩
      · rw [DMDimensions.is_static, hT]
      · rw [DMDimensions.is_static, hT]
        simp [Coord.is_static, DMTimeCoordinate.is_static, hr]
  · intro t hT hr
    rw [DMDimensions.is_static, hT]
    simp [Coord.is_static, DMTimeCoordinate.is_static, hr]

/-- Witness for C9: a `DMDimensions` whose `T` slot holds a time coordinate
with a concrete two-value range is not static. -/
theorem C9_witness :
    (⟨[Coord.time ⟨"time", "days", "noleap", some (DateRange.interval 0 10), none, none⟩], [],
      ⟨none, none, none,
        some (Coord.time ⟨"time", "days", "noleap", some (DateRange.interval 0 10), none, none⟩)⟩,
      ⟨none, none, none,
        some (Coord.time ⟨"time", "days", "noleap", some (DateRange.interval 0 10), none, none⟩)⟩⟩ :
      DMDimensions).is_static = some false :=
  (C9_is_static_iff _).2 ⟨"time", "days", "noleap", some (DateRange.interval 0 10), none, none⟩
    rfl (by decide)

/-- A concrete non-static time coordinate for the C1 failing input. -/
def tcC1 : DMTimeCoordinate :=
  ⟨"time", "days since 1980-01-01", "noleap", some (DateRange.interval 0 10), none, none⟩

/-- The non-static aggregate `DMDimensions((tcC1,))` of the C1 failing
input. -/
def dC1 : DMDimensions :=
  ⟨[Coord.time tcC1], [],
    ⟨none, none, none, some (Coord.time tcC1)⟩,
    ⟨none, none, none, some (Coord.time tcC1)⟩⟩

/-- Claim C1 (code bug): a non-static `DMDimensions` is constructed
successfully, its `is_static` is false, and yet `replace_date_range`
raises `AttributeError` instead of completing: the method ends with
`self.T = new_T`, and `T` is a read-only `@property` (no setter), so the
assignment fails on every aggregate that passes the assertion. -/
theorem C1_replace_date_range_raises :
    DMDimensions.mk? [Coord.time tcC1] [] = .ok dC1 ∧
    dC1.is_static = some false ∧
    dC1.replace_date_range (some (DateRange.interval 5 9)) =
      .error (DMError.attributeError "T") :=
  ⟨rfl, rfl, rfl⟩

/-- Counterexample to C5 as stated: a base coordinate whose `bounds`
reference is set (as `DMCoordinateBounds.from_coordinate` leaves it) makes
the scalar factory raise `RecursionError` — `dataclasses.asdict` recurses
through the cyclic back-reference — instead of returning the claimed
field-faithful scalar copy. -/
theorem C5_counterexample :
    DMScalarCoordinateMixin.from_coordinate ScalarCls.scalarCoordinate
      (Coord.coordinate ⟨"plev", "air_pressure", "Pa", DMAxis.Z, some 0⟩) (some 500) =
      .error DMError.recursionError ∧
    (Except.error DMError.recursionError : Except DMError Coord) ≠
      .ok (Coord.scalarCoordinate ⟨"plev", "air_pressure", "Pa", DMAxis.Z, some 0, some 500⟩) :=
  ⟨rfl, fun h => Except.noConfusion h⟩

/-- Claim C5 as amended: for a compatible non-scalar base coordinate `b`
whose `bounds` is unset and any value `v`, the scalar factory returns a
new scalar coordinate all of whose fields equal `b`'s field values, with
`value = v`, and `b` itself is passed by value and unchanged; when `b`'s
`bounds` reference is set, `dataclasses.asdict` recurses into the
referenced object's back-link and the call raises `RecursionError`
instead of returning a copy. -/
theorem C5_scalar_factory_round_trip :
    (∀ (b : DMCoordinate) (v : Option Int), b.bounds = none →
      DMScalarCoordinateMixin.from_coordinate ScalarCls.scalarCoordinate (Coord.coordinate b) v =
        .ok (Coord.scalarCoordinate ⟨b.name, b.standard_name, b.units, b.axis, b.bounds, v⟩)) ∧
    (∀ (b : DMVerticalCoordinate) (v : Option Int), b.bounds = none →
      DMScalarCoordinateMixin.from_coordinate ScalarCls.scalarVertical (Coord.vertical b) v =
        .ok (Coord.scalarVertical ⟨b.name, b.standard_name, b.units, b.positive, b.bounds, v⟩)) ∧
    (∀ (b : DMCoordinate) (v : Option Int) (n : Nat), b.bounds = some n →
      DMScalarCoordinateMixin.from_coordinate ScalarCls.scalarCoordinate (Coord.coordinate b) v =
        .error DMError.recursionError) ∧
    (∀ (b : DMVerticalCoordinate) (v : Option Int) (n : Nat), b.bounds = some n →
      DMScalarCoordinateMixin.from_coordinate ScalarCls.scalarVertical (Coord.vertical b) v =
        .error DMError.recursionError) := by
  refine ⟨?_, ?_, ?_, ?_⟩
  · intro b v h
    simp only [DMScalarCoordinateMixin.from_coordinate, h]
  · intro b v h
    simp only [DMScalarCoordinateMixin.from_coordinate, h]
  · intro b v n h
    simp only [DMScalarCoordinateMixin.from_coordinate, h]
  · intro b v n h
    simp only [DMScalarCoordinateMixin.from_coordinate, h]

/-- Witness for C5 (amended): a bounds-free pressure coordinate turned into
a scalar coordinate with value 500. -/
theorem C5_witness :
    (⟨"plev", "air_pressure", "Pa", DMAxis.Z, none⟩ : DMCoordinate).bounds = none ∧
    DMScalarCoordinateMixin.from_coordinate ScalarCls.scalarCoordinate
      (Coord.coordinate ⟨"plev", "air_pressure", "Pa", DMAxis.Z, none⟩) (some 500) =
      .ok (Coord.scalarCoordinate ⟨"plev", "air_pressure", "Pa", DMAxis.Z, none, some 500⟩) :=
  ⟨rfl, C5_scalar_factory_round_trip.1
    ⟨"plev", "air_pressure", "Pa", DMAxis.Z, none⟩ (some 500) rfl⟩

/-- Claim C8: dataclass equality of `DMParametricVerticalCoordinate`
ignores `formula_terms` (coordinates equal in every other field compare
equal), while dataclass equality of `DMTimeCoordinate` includes `range`
(coordinates differing only in `range` compare unequal). -/
theorem C8_equality_policy :
    (∀ a b : DMParametricVerticalCoordinate,
      a.name = b.name → a.standard_name = b.standard_name → a.units = b.units →
      a.positive = b.positive → a.bounds = b.bounds →
      a.computed_standard_name = b.computed_standard_name → a.long_name = b.long_name →
      DMParametricVerticalCoordinate.pyEq a b = true) ∧
    (∀ a b : DMTimeCoordinate,
      a.name = b.name → a.units = b.units → a.calendar = b.calendar →
      a.frequency = b.frequency → a.bounds = b.bounds → a.range ≠ b.range →
      DMTimeCoordinate.pyEq a b = false) := by
  constructor
  · intro a b h1 h2 h3 h4 h5 h6 h7
    simp [DMParametricVerticalCoordinate.pyEq, h1, h2, h3, h4, h5, h6, h7]
  · intro a b h1 h2 h3 h4 h5 h6
    simp [DMTimeCoordinate.pyEq, h1, h2, h3, h4, h5, h6]

/-- Witness for C8: two parametric vertical coordinates differing only in
`formula_terms` compare equal; two time coordinates differing only in
`range` compare unequal. -/
theorem C8_witness :
    DMParametricVerticalCoordinate.pyEq
      ⟨"lev", "height", "m", "up", none, "csn", "ln", some "a: pa"⟩
      ⟨"lev", "height", "m", "up", none, "csn", "ln", some "b: pb"⟩ = true ∧
    DMTimeCoordinate.pyEq
      ⟨"time", "days", "noleap", some FXDateRange, none, none⟩
      ⟨"time", "days", "noleap", some (DateRange.interval 0 3), none, none⟩ = false :=
  ⟨C8_equality_policy.1 _ _ rfl rfl rfl rfl rfl rfl rfl,
   C8_equality_policy.2 _ _ rfl rfl rfl rfl rfl (by decide)⟩

lemma Coord.axis_withBounds (c : Coord) (b : Option Nat) : (c.withBounds b).axis = c.axis := by
  cases c <;> rfl

lemma Coord.name_withBounds (c : Coord) (b : Option Nat) : (c.withBounds b).name = c.name := by
  cases c <;> rfl

lemma Coord.standard_name_withBounds (c : Coord) (b : Option Nat) :
    (c.withBounds b).standard_name = c.standard_name := by
  cases c <;> rfl

lemma Coord.units_withBounds (c : Coord) (b : Option Nat) :
    (c.withBounds b).units = c.units := by
  cases c <;> rfl

lemma Coord.withBounds_withBounds (c : Coord) (b1 b2 : Option Nat) :
    (c.withBounds b1).withBounds b2 = c.withBounds b2 := by
  cases c <;> rfl

lemma DMAxis.name_ne_BOUNDS (a : DMAxis) (h : a ≠ DMAxis.BOUNDS) : a.name ≠ "BOUNDS" := by
  cases a <;> first | exact absurd rfl h | decide

lemma dupLoop_pair_ok (c1 c2 : Coord) (hne : ¬ (c2.axisName = c1.axisName)) :
    dupLoop [c1, c2] [] = .ok [(c2.axisName, c2), (c1.axisName, c1)] := by
  have e1 : dictGet [] c1.axisName = none := rfl
  have e2 : dictGet [(c1.axisName, c1)] c2.axisName = none := by
    simp only [dictGet, if_neg hne]
  simp only [dupLoop, e1, e2]

lemma CBmk_pair_ok (n sn u : String) (c1 : Coord) (bd : DMBoundsDimension)
    (h1 : c1.axisName ≠ "BOUNDS") :
    DMCoordinateBounds.mk? n sn u [c1, Coord.boundsDim bd] [] =
      .ok ⟨n, sn, u, [c1, Coord.boundsDim bd], [],
        buildAxesLoop AxesD.empty [c1, Coord.boundsDim bd],
        buildAxesLoop AxesD.empty [c1, Coord.boundsDim bd]⟩ := by
  have hne : ¬ ((Coord.boundsDim bd).axisName = c1.axisName) := by
    intro he
    exact h1 (he.symm.trans rfl)
  have hdl := dupLoop_pair_ok c1 (Coord.boundsDim bd) hne
  simp [DMCoordinateBounds.mk?, hdl, Coord.axis, buildAxesLoop]

lemma from_coordinate_eval (coord : Coord) (bd : DMBoundsDimension) (newId : Nat)
    (h : coord.axis ≠ DMAxis.BOUNDS) :
    DMCoordinateBounds.from_coordinate coord (Sum.inr bd) newId =
      .ok (⟨coord.name, coord.standard_name, coord.units,
        [coord.withBounds (some newId), Coord.boundsDim bd], [],
        buildAxesLoop AxesD.empty [coord.withBounds (some newId), Coord.boundsDim bd],
        buildAxesLoop AxesD.empty [coord.withBounds (some newId), Coord.boundsDim bd]⟩,
        coord.withBounds (some newId)) := by
  have h1 : (coord.withBounds (some newId)).axisName ≠ "BOUNDS" := by
    rw [Coord.axisName, Coord.axis_withBounds]
    exact DMAxis.name_ne_BOUNDS _ h
  have hmk := CBmk_pair_ok coord.name coord.standard_name coord.units
    (coord.withBounds (some newId)) bd h1
  simp only [DMCoordinateBounds.from_coordinate, hmk]

lemma from_coordinate_inl (coord : Coord) (s : String) (newId : Nat) :
    DMCoordinateBounds.from_coordinate coord (Sum.inl s) newId =
      DMCoordinateBounds.from_coordinate coord (Sum.inr ⟨s⟩) newId := rfl

lemma withBounds_bounds_of_ne (coord : Coord) (newId : Nat)
    (h : coord.axis ≠ DMAxis.BOUNDS) :
    (coord.withBounds (some newId)).bounds = some newId := by
  cases coord <;> first | rfl | exact absurd rfl h

/-- Claim C6: `DMCoordinateBounds.from_coordinate` on a coordinate (axis
kind other than BOUNDS) and a raw bounds-dimension name succeeds, copies
the coordinate's `name`/`standard_name`/`units`, builds a
`DMBoundsDimension` with the given name as the second `dims` entry,
returns an object whose `coord` accessor is the source coordinate (in its
post-assignment state), and as a side effect sets the coordinate's
`bounds` to the identity of the returned object. -/
theorem C6_bounds_factory (coord : Coord) (s : String) (newId : Nat)
    (h : coord.axis ≠ DMAxis.BOUNDS) :
    ∃ cb : DMCoordinateBounds,
      DMCoordinateBounds.from_coordinate coord (Sum.inl s) newId =
        .ok (cb, coord.withBounds (some newId)) ∧
      cb.name = coord.name ∧ cb.standard_name = coord.standard_name ∧
      cb.units = coord.units ∧
      cb.dims = [coord.withBounds (some newId), Coord.boundsDim ⟨s⟩] ∧
      cb.coord = .ok (coord.withBounds (some newId)) ∧
      (coord.withBounds (some newId)).bounds = some newId := by
  refine ⟨⟨coord.name, coord.standard_name, coord.units,
      [coord.withBounds (some newId), Coord.boundsDim ⟨s⟩], [],
      buildAxesLoop AxesD.empty [coord.withBounds (some newId), Coord.boundsDim ⟨s⟩],
      buildAxesLoop AxesD.empty [coord.withBounds (some newId), Coord.boundsDim ⟨s⟩]⟩,
    ?_, rfl, rfl, rfl, rfl, ?_, withBounds_bounds_of_ne coord newId h⟩
  · rw [from_coordinate_inl]
    exact from_coordinate_eval coord ⟨s⟩ newId h
  · have hp : (fun c => decide (c.axis ≠ DMAxis.BOUNDS)) (coord.withBounds (some newId)) =
        true := by
      simp [Coord.axis_withBounds, h]
    have hf : List.find? (fun c => decide (c.axis ≠ DMAxis.BOUNDS))
        [coord.withBounds (some newId), Coord.boundsDim ⟨s⟩] =
        some (coord.withBounds (some newId)) := List.find?_cons_of_pos _ hp
    simp only [DMCoordinateBounds.coord, hf]

/-- Witness for C6: a latitude coordinate and bounds name "lat_bnds". -/
theorem C6_witness :
    (Coord.latitude ⟨"lat", none⟩).axis ≠ DMAxis.BOUNDS ∧
    (∃ cb : DMCoordinateBounds,
      DMCoordinateBounds.from_coordinate (Coord.latitude ⟨"lat", none⟩)
          (Sum.inl "lat_bnds") 0 =
        .ok (cb, (Coord.latitude ⟨"lat", none⟩).withBounds (some 0)) ∧
      cb.name = (Coord.latitude ⟨"lat", none⟩).name ∧
      cb.standard_name = (Coord.latitude ⟨"lat", none⟩).standard_name ∧
      cb.units = (Coord.latitude ⟨"lat", none⟩).units ∧
      cb.dims = [(Coord.latitude ⟨"lat", none⟩).withBounds (some 0),
        Coord.boundsDim ⟨"lat_bnds"⟩] ∧
      cb.coord = .ok ((Coord.latitude ⟨"lat", none⟩).withBounds (some 0)) ∧
      ((Coord.latitude ⟨"lat", none⟩).withBounds (some 0)).bounds = some 0) :=
  ⟨by decide, C6_bounds_factory (Coord.latitude ⟨"lat", none⟩) "lat_bnds" 0 (by decide)⟩

/-- Counterexample to C7 as stated: `dims` of length 2 with zero
BOUNDS-kind members (two latitude coordinates), a case the claim covers,
makes `DMCoordinateBounds` construction fail — but with the duplicate-axis
error of the inherited `DMDimensions` validation, which runs first, not
with a malformed-bounds error. -/
theorem C7_counterexample :
    DMCoordinateBounds.mk? "lat" "latitude" "degrees_N"
      [Coord.latitude ⟨"lat", none⟩, Coord.latitude ⟨"lat2", none⟩] [] =
      .error (DMError.duplicateAxis "Y" (Coord.latitude ⟨"lat2", none⟩)
        (Coord.latitude ⟨"lat", none⟩)) ∧
    DMError.isMalformedBounds (DMError.duplicateAxis "Y" (Coord.latitude ⟨"lat2", none⟩)
      (Coord.latitude ⟨"lat", none⟩)) = false :=
  ⟨rfl, rfl⟩

/-- Claim C7 as amended: provided the combined coordinates pass the
duplicate-axis validation (pairwise-distinct non-OTHER axis kinds, which
runs first), `DMCoordinateBounds` construction fails with a
malformed-bounds error exactly when `scalar_coords` is non-empty, `dims`
does not have exactly two members, or no `dims` member carries BOUNDS;
with empty `scalar_coords` and exactly two `dims` members of which exactly
one carries BOUNDS, construction succeeds. -/
theorem C7_malformed_bounds (n sn u : String) (dims scalar_coords : List Coord)
    (hdist : ∀ i j : Fin (dims ++ scalar_coords).length, i < j →
      ((dims ++ scalar_coords).get i).axisName = ((dims ++ scalar_coords).get j).axisName →
      ((dims ++ scalar_coords).get i).axisName = "OTHER") :
    (¬ (scalar_coords = [] ∧ dims.length = 2 ∧ ∃ c ∈ dims, c.axis = DMAxis.BOUNDS) →
      ∃ e, DMCoordinateBounds.mk? n sn u dims scalar_coords = .error e ∧
        e.isMalformedBounds = true) ∧
    ((scalar_coords = [] ∧ dims.length = 2 ∧
        dims.countP (fun c => decide (c.axis = DMAxis.BOUNDS)) = 1) →
      ∃ cb, DMCoordinateBounds.mk? n sn u dims scalar_coords = .ok cb) := by
  have hp : (dims ++ scalar_coords).Pairwise keyOK :=
    List.pairwise_iff_get.mpr (fun i j hij => hdist i j hij)
  obtain ⟨td, htd⟩ := dupLoop_ok_of_distinct _ [] (fun c _ _ => rfl) hp
  constructor
  · intro hneg
    by_cases hsc : scalar_coords = []
    · subst hsc
      by_cases hbad : dims.length ≠ 2 ∨ ¬ dims.any (fun c => decide (c.axis = DMAxis.BOUNDS))
      · refine ⟨DMError.improperDims n dims, ?_, rfl⟩
        simp only [DMCoordinateBounds.mk?, htd]
        rw [if_neg (fun hcon => hcon rfl), if_pos hbad]
      · push_neg at hbad
        exfalso
        apply hneg
        obtain ⟨hl2, hany⟩ := hbad
        rcases List.any_eq_true.mp hany with ⟨c, hc, hcb⟩
        exact ⟨rfl, hl2, c, hc, by simpa using hcb⟩
    · refine ⟨DMError.scalarCoordsOnBounds n scalar_coords, ?_, rfl⟩
      simp only [DMCoordinateBounds.mk?, htd]
      rw [if_pos hsc]
  · rintro ⟨hsc, hlen, hcnt⟩
    subst hsc
    have hany : dims.any (fun c => decide (c.axis = DMAxis.BOUNDS)) = true := by
      rw [List.any_eq_true]
      have hpos : 0 < dims.countP (fun c => decide (c.axis = DMAxis.BOUNDS)) := by omega
      rcases List.countP_pos_iff.mp hpos with ⟨c, hc, hcb⟩
      exact ⟨c, hc, hcb⟩
    refine ⟨⟨n, sn, u, dims, [], buildAxesLoop AxesD.empty dims,
      buildAxesLoop (buildAxesLoop AxesD.empty dims) []⟩, ?_⟩
    simp only [DMCoordinateBounds.mk?, htd]
    rw [if_neg (fun hcon => hcon rfl), if_neg (by simp [hlen, hany])]

/-- Witness for C7 (amended): `dims` of length 3 with pairwise-distinct
axis kinds fails with a malformed-bounds (improper dimensions) error. -/
theorem C7_witness :
    (∀ i j : Fin ([Coord.latitude ⟨"lat", none⟩, Coord.longitude ⟨"lon", none⟩,
        Coord.boundsDim ⟨"bnds"⟩] ++ ([] : List Coord)).length, i < j →
      (([Coord.latitude ⟨"lat", none⟩, Coord.longitude ⟨"lon", none⟩,
        Coord.boundsDim ⟨"bnds"⟩] ++ ([] : List Coord)).get i).axisName =
      (([Coord.latitude ⟨"lat", none⟩, Coord.longitude ⟨"lon", none⟩,
        Coord.boundsDim ⟨"bnds"⟩] ++ ([] : List Coord)).get j).axisName →
      (([Coord.latitude ⟨"lat", none⟩, Coord.longitude ⟨"lon", none⟩,
        Coord.boundsDim ⟨"bnds"⟩] ++ ([] : List Coord)).get i).axisName = "OTHER") ∧
    ¬ (([] : List Coord) = [] ∧
      ([Coord.latitude ⟨"lat", none⟩, Coord.longitude ⟨"lon", none⟩,
        Coord.boundsDim ⟨"bnds"⟩] : List Coord).length = 2 ∧
      ∃ c ∈ [Coord.latitude ⟨"lat", none⟩, Coord.longitude ⟨"lon", none⟩,
        Coord.boundsDim ⟨"bnds"⟩], c.axis = DMAxis.BOUNDS) ∧
    (∃ e, DMCoordinateBounds.mk? "lat" "latitude" "degrees_N"
        [Coord.latitude ⟨"lat", none⟩, Coord.longitude ⟨"lon", none⟩,
          Coord.boundsDim ⟨"bnds"⟩] [] = .error e ∧ e.isMalformedBounds = true) :=
  ⟨by decide, by decide,
   (C7_malformed_bounds "lat" "latitude" "degrees_N"
      [Coord.latitude ⟨"lat", none⟩, Coord.longitude ⟨"lon", none⟩,
        Coord.boundsDim ⟨"bnds"⟩] [] (by decide)).1 (by decide)⟩

/-- Claim C10: on a coordinate whose `bounds` field already references a
previously built bounds object, `from_coordinate` does not fail on account
of the existing link: it succeeds (for any non-BOUNDS coordinate),
unconditionally reassigns the coordinate's `bounds` to the new object's
identity, and produces the same outcome as it would on the coordinate with
no prior link — the prior reference is silently discarded. -/
theorem C10_bounds_link_overwritten (coord : Coord) (b0 : Nat) (s : String) (newId : Nat)
    (_hb : coord.bounds = some b0) (h : coord.axis ≠ DMAxis.BOUNDS) :
    ∃ cb, DMCoordinateBounds.from_coordinate coord (Sum.inl s) newId =
        .ok (cb, coord.withBounds (some newId)) ∧
      (coord.withBounds (some newId)).bounds = some newId ∧
      DMCoordinateBounds.from_coordinate coord (Sum.inl s) newId =
        DMCoordinateBounds.from_coordinate (coord.withBounds none) (Sum.inl s) newId := by
  refine ⟨⟨coord.name, coord.standard_name, coord.units,
      [coord.withBounds (some newId), Coord.boundsDim ⟨s⟩], [],
      buildAxesLoop AxesD.empty [coord.withBounds (some newId), Coord.boundsDim ⟨s⟩],
      buildAxesLoop AxesD.empty [coord.withBounds (some newId), Coord.boundsDim ⟨s⟩]⟩,
    ?_, withBounds_bounds_of_ne coord newId h, ?_⟩
  · rw [from_coordinate_inl]
    exact from_coordinate_eval coord ⟨s⟩ newId h
  · rw [from_coordinate_inl, from_coordinate_inl,
      from_coordinate_eval coord ⟨s⟩ newId h,
      from_coordinate_eval (coord.withBounds none) ⟨s⟩ newId
        (by rw [Coord.axis_withBounds]; exact h),
      Coord.name_withBounds, Coord.standard_name_withBounds, Coord.units_withBounds,
      Coord.withBounds_withBounds]

/-- Witness for C10: a latitude coordinate whose `bounds` already
references object 7 is relinked to the newly created object 1. -/
theorem C10_witness :
    (Coord.latitude ⟨"lat", some 7⟩).bounds = some 7 ∧
    (Coord.latitude ⟨"lat", some 7⟩).axis ≠ DMAxis.BOUNDS ∧
    (∃ cb, DMCoordinateBounds.from_coordinate (Coord.latitude ⟨"lat", some 7⟩)
        (Sum.inl "lat_bnds") 1 =
        .ok (cb, (Coord.latitude ⟨"lat", some 7⟩).withBounds (some 1)) ∧
      ((Coord.latitude ⟨"lat", some 7⟩).withBounds (some 1)).bounds = some 1 ∧
      DMCoordinateBounds.from_coordinate (Coord.latitude ⟨"lat", some 7⟩)
        (Sum.inl "lat_bnds") 1 =
        DMCoordinateBounds.from_coordinate
          ((Coord.latitude ⟨"lat", some 7⟩).withBounds none) (Sum.inl "lat_bnds") 1) :=
  ⟨rfl, by decide,
   C10_bounds_link_overwritten (Coord.latitude ⟨"lat", some 7⟩) 7 "lat_bnds" 1 rfl (by decide)⟩
